import Mathlib

/-!
Shallow embedding of the data logic of `src/app.py` (a single-file BTC price
dashboard) and proofs of the specification claims about it.

Modelling conventions:
* A pandas `DataFrame` is a list of named columns; each cell is `Option ℚ`
  (`none` models a null/NaN cell, numbers and dates are embedded as rationals).
* Plotly figures are records keeping exactly the data the callbacks put into
  them (trace data and the layout title); styling is out of scope per the spec.
* Fallible column access (`df[name]` on a missing key raises `KeyError` in
  pandas) is modelled with `Except`.
-/

namespace BtcApp

/-- A dataframe: ordered named columns of nullable rational cells.
Mirrors the global `df` of `app.py` after the renaming block (lines 13-24). -/
def DataFrame : Type := List (String × List (Option ℚ))

instance : DecidableEq DataFrame := by
  unfold DataFrame
  infer_instance

/-- Column access `df[name]` as a total lookup: `some column` when the name is present. -/
def colOf (df : DataFrame) (name : String) : Option (List (Option ℚ)) :=
  List.lookup name df

/-- The column for `name`, defaulting to the empty column; only used under a
guard that the name is present (mirroring guarded `df[price_type]` access). -/
def colD (df : DataFrame) (name : String) : List (Option ℚ) :=
  (colOf df name).getD []

/-- Membership test `price_type in df.columns` (membership test of app.py line 162). -/
def hasCol (df : DataFrame) (name : String) : Bool :=
  (colOf df name).isSome

/-- Null test `series.isnull().all()` (app.py line 162): every cell is null. -/
def isnullAll (col : List (Option ℚ)) : Bool :=
  col.all (fun o => o.isNone)

/-- Number of non-null cells of a column (`series.notnull().sum()`). -/
def nonNullCount (col : List (Option ℚ)) : Nat :=
  (col.filterMap id).length

/-- Number of rows of the dataframe (length of its first column). -/
def numRows (df : DataFrame) : Nat :=
  match df with
  | [] => 0
  | c :: _ => c.2.length

/-- One plotly scatter trace as filled by `update_graph`: x data, y data,
mode and name (app.py lines 163-169). -/
structure Trace where
  x : List (Option ℚ)
  y : List (Option ℚ)
  mode : String
  name : String
deriving DecidableEq, Repr

/-- A plotly figure: its traces and its layout title (app.py lines 161-180).
Axis titles / template / colors are styling, out of scope per the spec. -/
structure Figure where
  traces : List Trace
  title : String
deriving DecidableEq, Repr

/-- The "data unavailable" placeholder figure (app.py lines 176-180):
an empty `go.Figure()` whose layout title is set, no trace added. -/
def placeholderFig : Figure :=
  { traces := [], title := "❌ Datos no disponibles" }

/-- Title of the plotted line chart (app.py line 171). -/
def chartTitle : String :=
  "📈 Evolución del Precio de Bitcoin (USD)"

/-- The `update_graph` callback (app.py lines 160-181).

```python
def update_graph(price_type):
    fig = go.Figure()
    if price_type in df.columns and not df[price_type].isnull().all():
        fig.add_trace(go.Scatter(x=pd.to_datetime(df["Fecha"]),
                                 y=df[price_type], mode="lines", ...,
                                 name=price_type))
        fig.update_layout(title="📈 Evolución del Precio de Bitcoin (USD)", ...)
    else:
        fig.update_layout(title="❌ Datos no disponibles", ...)
    return fig
```

`pd.to_datetime` is a dtype coercion of the `Fecha` column and is modelled as
the identity on the embedded column.  Accessing `df["Fecha"]` raises `KeyError`
when the column is absent, hence the `Except`. -/
def update_graph (df : DataFrame) (price_type : String) : Except String Figure :=
  if hasCol df price_type && !(isnullAll (colD df price_type)) then
    match colOf df "Fecha" with
    | some fecha =>
        Except.ok { traces := [{ x := fecha, y := colD df price_type,
                                 mode := "lines", name := price_type }],
                    title := chartTitle }
    | none => Except.error "KeyError: Fecha"
  else
    Except.ok placeholderFig

/-- Returns `true` exactly when the callback returned a figure rather than raising. -/
def returnsOk (r : Except String Figure) : Bool :=
  match r with
  | Except.ok _ => true
  | Except.error _ => false

/-- Length of the y-data of the first trace of a returned figure
(`none` when the callback raised or the figure has no trace). -/
def firstTraceYLen (r : Except String Figure) : Option Nat :=
  match r with
  | Except.ok fig =>
      match fig.traces with
      | [] => none
      | t :: _ => some t.y.length
  | Except.error _ => none

/-! ### Summary statistics (`update_table`, app.py lines 183-204)

`df.describe()` computes, for each column, the eight standard descriptive
statistics (count, mean, std, min, 25%, 50%, 75%, max) over the non-null
cells, using linear interpolation for the quantiles.  The statistics are
embedded over ℚ; the floating-point square root inside `std` is surrogated by
`Rat.sqrt` — none of the claims proved below depend on its numeric value,
only on the shape and determinism of the resulting table. -/

/-- Arithmetic mean of a list of rationals (0 on the empty list, matching
division by zero in ℚ; pandas reports NaN there, a case excluded by the
claims' hypotheses). -/
def mean (xs : List ℚ) : ℚ :=
  xs.sum / (xs.length : ℚ)

/-- Sample standard deviation (ddof = 1) as used by `DataFrame.describe`;
`Rat.sqrt` stands in for the floating-point square root. -/
def sampleStd (xs : List ℚ) : ℚ :=
  Rat.sqrt ((xs.map (fun x => (x - mean xs) ^ 2)).sum / ((xs.length : ℚ) - 1))

/-- Insert into a sorted list of rationals. -/
def insertSorted (x : ℚ) : List ℚ → List ℚ
  | [] => [x]
  | y :: ys => if x ≤ y then x :: y :: ys else y :: insertSorted x ys

/-- Sort a list of rationals ascending (insertion sort). -/
def sortQ (xs : List ℚ) : List ℚ :=
  xs.foldr insertSorted []

/-- Linear-interpolation quantile, pandas' default `interpolation='linear'`:
at fractional position `p * (n - 1)` of the sorted data. -/
def quantile (xs : List ℚ) (p : ℚ) : ℚ :=
  let s := sortQ xs
  let h : ℚ := p * ((xs.length : ℚ) - 1)
  let lo := h.floor.toNat
  let hi := h.ceil.toNat
  s.getD lo 0 + (h - (h.floor : ℚ)) * (s.getD hi 0 - s.getD lo 0)

/-- Minimum of a list of rationals (0 on empty, excluded by hypotheses). -/
def minQ (xs : List ℚ) : ℚ :=
  match sortQ xs with
  | [] => 0
  | y :: _ => y

/-- Maximum of a list of rationals (0 on empty, excluded by hypotheses). -/
def maxQ (xs : List ℚ) : ℚ :=
  (sortQ xs).getLastD 0

/-- The eight statistics of `DataFrame.describe`, in the order pandas emits
them, each paired with its index label. -/
def statFns : List (String × (List ℚ → ℚ)) :=
  [("count", fun xs => (xs.length : ℚ)),
   ("mean", mean),
   ("std", sampleStd),
   ("min", minQ),
   ("25%", fun xs => quantile xs (1 / 4)),
   ("50%", fun xs => quantile xs (1 / 2)),
   ("75%", fun xs => quantile xs (3 / 4)),
   ("max", maxQ)]

/-- The table `update_table` hands to `dash_table.DataTable`:
`resumen = df.describe().reset_index()` (app.py line 188), i.e. an `index`
column of statistic labels plus one value column per dataframe column, one
record per statistic. -/
structure StatTable where
  columns : List String
  records : List (String × List ℚ)
deriving DecidableEq, Repr

/-- Computation `df.describe().reset_index()` with string column labels (app.py
lines 188-189): one record per statistic, each record carrying the statistic
label (the reset index) and the statistic's value over the non-null cells of
every column. -/
def describe (df : DataFrame) : StatTable :=
  { columns := "index" :: df.map (fun c => c.1),
    records := statFns.map
      (fun sf => (sf.1, df.map (fun c => sf.2 (c.2.filterMap id)))) }

/-- The `update_table` callback (app.py lines 187-204): its single parameter
is literally named `_` in the source and never read; the body recomputes
`df.describe().reset_index()` and wraps it in a table widget (whose styling is
out of scope). -/
def update_table (df : DataFrame) (_selected : String) : StatTable :=
  describe df

/-! ### ACF / PACF (`generar_acf_pacf`, app.py lines 36-51)

`acf` and `pacf` come from `statsmodels.tsa.stattools`, a third-party library
whose source is not part of this repository; they are modelled from the
standard statistical definitions the spec names (§4.4): the autocorrelation
function from the sample autocovariances, and the partial autocorrelation
function via the Durbin-Levinson recursion on those autocorrelations.  Both
return the coefficients for lags `0 .. nlags`, hence `nlags + 1` values.
All arithmetic is over ℚ (division by zero yields 0 where the statistics are
degenerate; the claims' hypotheses exclude those cases where they matter). -/

/-- Sample autocovariance at lag `k`:
`(1/n) * Σ_(t) (x_t - mean) * (x_(t+k) - mean)`. -/
def autocov (xs : List ℚ) (k : Nat) : ℚ :=
  let d := xs.map (fun x => x - mean xs)
  ((d.zip (d.drop k)).map (fun p => p.1 * p.2)).sum / (xs.length : ℚ)

/-- The autocorrelation function for lags `0 .. nlags`:
`r_k = autocov k / autocov 0`. -/
def acfList (xs : List ℚ) (nlags : Nat) : List ℚ :=
  (List.range (nlags + 1)).map (fun k => autocov xs k / autocov xs 0)

/-- One Durbin-Levinson step: from the order-`k` AR coefficients
`phi = [φ_(k,1), …, φ_(k,k)]` to the order-`k+1` coefficients, where the new
reflection coefficient `φ_(k+1,k+1)` is the lag-`k+1` partial
autocorrelation. -/
def dlStep (r : Nat → ℚ) (k : Nat) (phi : List ℚ) : List ℚ :=
  let num := r (k + 1) - ((List.range k).map (fun i => phi.getD i 0 * r (k - i))).sum
  let den := 1 - ((List.range k).map (fun i => phi.getD i 0 * r (i + 1))).sum
  let phiNew := num / den
  (phi.mapIdx (fun i a => a - phiNew * phi.getD (k - 1 - i) 0)) ++ [phiNew]

/-- Order-`k` Yule-Walker AR coefficients by Durbin-Levinson recursion. -/
def dlPhi (r : Nat → ℚ) : Nat → List ℚ
  | 0 => []
  | k + 1 => dlStep r k (dlPhi r k)

/-- The partial autocorrelation function for lags `0 .. nlags`: 1 at lag 0,
then the reflection coefficient of each Durbin-Levinson order. -/
def pacfList (xs : List ℚ) (nlags : Nat) : List ℚ :=
  let r : Nat → ℚ := fun k => autocov xs k / autocov xs 0
  1 :: (List.range nlags).map (fun k => (dlPhi r (k + 1)).getLastD 0)

/-- A plotly bar figure as filled by `generar_acf_pacf`: the x data (lags),
the y data (coefficients) and the layout title. -/
structure BarFigure where
  x : List Nat
  y : List ℚ
  title : String
deriving DecidableEq, Repr

/-- Function `generar_acf_pacf` (app.py lines 36-49):

```python
def generar_acf_pacf(series, nlags=40):
    acf_vals = acf(series, nlags=nlags)
    pacf_vals = pacf(series, nlags=nlags)
    lags = np.arange(len(acf_vals))
    acf_fig  = bar chart of (lags, acf_vals),  title "ACF del Precio"
    pacf_fig = bar chart of (lags, pacf_vals), title "PACF del Precio"
    return acf_fig, pacf_fig
```

Note the single lag axis `np.arange(len(acf_vals))` shared by both figures. -/
def generar_acf_pacf (series : List ℚ) (nlags : Nat) : BarFigure × BarFigure :=
  let acf_vals := acfList series nlags
  let pacf_vals := pacfList series nlags
  let lags := List.range acf_vals.length
  ({ x := lags, y := acf_vals, title := "ACF del Precio" },
   { x := lags, y := pacf_vals, title := "PACF del Precio" })

/-! ### State-passing wrappers

The callbacks read the module-level dataframe `df` and contain no assignment
or in-place operation on it (the only `inplace` mutation in app.py, the
`rename` on line 17, happens during initialization, before any view runs).
To make the frame claim statable, each view computation is wrapped as a state
transformer on the dataframe, returning its result together with the
dataframe state after the call — which, mirroring the mutation-free source
bodies, is the dataframe it was given. -/

/-- Callback `update_graph` as a state transformer on the global dataframe. -/
def update_graph_call (df : DataFrame) (price_type : String) :
    Except String Figure × DataFrame :=
  (update_graph df price_type, df)

/-- Callback `update_table` as a state transformer on the global dataframe. -/
def update_table_call (df : DataFrame) (selected : String) :
    StatTable × DataFrame :=
  (update_table df selected, df)

/-- The startup call `generar_acf_pacf(df['Cierre'].dropna())` (app.py
line 51) as a state transformer on the global dataframe. -/
def generar_acf_pacf_call (df : DataFrame) :
    (BarFigure × BarFigure) × DataFrame :=
  (generar_acf_pacf ((colD df "Cierre").filterMap id) 40, df)

/-- The spec's "data unavailable" condition: the requested field is absent
from the dataframe, or every one of its cells is null. -/
def noData (df : DataFrame) (name : String) : Bool :=
  !hasCol df name || isnullAll (colD df name)

/-- A small concrete dataframe used to instantiate the theorems: two rows,
with an `Apertura` column holding one non-null and one null cell. -/
def dfEx : DataFrame :=
  [("Fecha", [some 0, some 1]),
   ("Apertura", [some 5, none]),
   ("Cierre", [some 3, some 4])]

/-- A concrete series of 41 observations. -/
def series41 : List ℚ := List.replicate 41 1

/-! ## Theorems -/

/-- A column with at least one non-null cell is not entirely null. -/
theorem isnullAll_false_of_pos {col : List (Option ℚ)} (h : 0 < nonNullCount col) :
    isnullAll col = false := by
  simp only [nonNullCount, List.length_pos, ne_eq, List.filterMap_eq_nil_iff, id] at h
  push_neg at h
  obtain ⟨a, ha, hna⟩ := h
  simp only [isnullAll, List.all_eq_false]
  exact ⟨a, ha, by simp [Option.isNone_iff_eq_none, hna]⟩

/-- C1 (counterexample): the claim "the line series produced by
`update_graph` has length equal to the number of non-null rows of the field"
fails on a dataframe whose `Apertura` column is `[some 5, none]`: the
callback plots the full column `df[price_type]`, so the series has length 2
while the field has exactly 1 non-null row. -/
theorem update_graph_len_nulls_cex :
    firstTraceYLen (update_graph dfEx "Apertura") ≠
      some (nonNullCount (colD dfEx "Apertura")) := by decide

/-- C1 (amended): for a dataframe containing `Fecha`, if the selected field
is present and has at least one non-null value, the line series produced by
`update_graph` has length equal to the total number of rows of that field's
column (nulls included) — which coincides with the number of non-null rows
exactly when the column has no nulls. -/
theorem update_graph_series_length (df : DataFrame) (p : String)
    (col : List (Option ℚ)) (hf : hasCol df "Fecha" = true)
    (hc : colOf df p = some col) (hn : 0 < nonNullCount col) :
    firstTraceYLen (update_graph df p) = some col.length := by
  obtain ⟨fecha, hfe⟩ := Option.isSome_iff_exists.mp hf
  have hcd : colD df p = col := by simp [colD, hc]
  have hguard : (hasCol df p && !(isnullAll (colD df p))) = true := by
    simp [hasCol, hc, hcd, isnullAll_false_of_pos hn]
  unfold update_graph
  rw [hguard, hfe]
  simp [firstTraceYLen, hcd]

/-- C1 (witness): the amended claim instantiated at a concrete dataframe
whose `Apertura` column is `[some 5, none]`. -/
theorem update_graph_series_length_witness :
    hasCol dfEx "Fecha" = true ∧ colOf dfEx "Apertura" = some [some 5, none] ∧
    0 < nonNullCount [some 5, none] ∧
    firstTraceYLen (update_graph dfEx "Apertura") =
      some ([some 5, none] : List (Option ℚ)).length :=
  ⟨by decide, by decide, by decide,
   update_graph_series_length dfEx "Apertura" [some 5, none]
     (by decide) (by decide) (by decide)⟩

/-- C2: on a dataframe containing `Fecha`, `update_graph` returns the
"data unavailable" placeholder exactly when the requested field is absent or
entirely null, returning normally (`Except.ok`, never an error) in that case;
in every other case it returns the plotted line series, which is not the
placeholder. -/
theorem update_graph_placeholder_iff (df : DataFrame) (p : String)
    (hf : hasCol df "Fecha" = true) :
    (update_graph df p = Except.ok placeholderFig ↔ noData df p = true) ∧
    (noData df p = false →
      update_graph df p =
        Except.ok { traces := [{ x := colD df "Fecha", y := colD df p,
                                 mode := "lines", name := p }],
                    title := chartTitle } ∧
      update_graph df p ≠ Except.ok placeholderFig) := by
  obtain ⟨fecha, hfe⟩ := Option.isSome_iff_exists.mp hf
  have hcd : colD df "Fecha" = fecha := by simp [colD, hfe]
  have hgn : (hasCol df p && !(isnullAll (colD df p))) = !(noData df p) := by
    simp [noData]
  unfold update_graph
  rw [hgn, hfe, hcd]
  cases hnd : noData df p <;> simp [placeholderFig]

/-- C2 (witness): the placeholder characterisation instantiated at a concrete
dataframe and the field `Apertura`. -/
theorem update_graph_placeholder_iff_witness :
    hasCol dfEx "Fecha" = true ∧
    ((update_graph dfEx "Apertura" = Except.ok placeholderFig ↔
        noData dfEx "Apertura" = true) ∧
     (noData dfEx "Apertura" = false →
       update_graph dfEx "Apertura" =
         Except.ok { traces := [{ x := colD dfEx "Fecha", y := colD dfEx "Apertura",
                                  mode := "lines", name := "Apertura" }],
                     title := chartTitle } ∧
       update_graph dfEx "Apertura" ≠ Except.ok placeholderFig)) :=
  ⟨by decide, update_graph_placeholder_iff dfEx "Apertura" (by decide)⟩

/-- C3: `update_table` ignores its declared input — for any two
selected-field values, the same dataframe produces identical results (its
parameter is named `_` in the source and never read). -/
theorem update_table_ignores_input (df : DataFrame) (a b : String) :
    update_table df a = update_table df b := rfl

/-- C4: for any input series of length greater than 40, the autocorrelation
and partial-autocorrelation value sequences produced by `generar_acf_pacf`
(with its default `nlags = 40`) each have exactly 41 entries, one per lag
0 through 40. -/
theorem acf_pacf_have_41_entries (s : List ℚ) (h : 40 < s.length) :
    (generar_acf_pacf s 40).1.y.length = 41 ∧
    (generar_acf_pacf s 40).2.y.length = 41 := by
  simp [generar_acf_pacf, acfList, pacfList]

/-- C4 (witness): the 41-entry property instantiated at a concrete series of
41 observations. -/
theorem acf_pacf_have_41_entries_witness :
    40 < series41.length ∧
    ((generar_acf_pacf series41 40).1.y.length = 41 ∧
     (generar_acf_pacf series41 40).2.y.length = 41) :=
  ⟨by norm_num [series41], acf_pacf_have_41_entries series41 (by norm_num [series41])⟩

/-- C5: for any non-degenerate input series (non-zero lag-0 sample
autocovariance, i.e. non-constant data — the spec's "admissible
non-degenerate series"), the lag-0 entry of the autocorrelation sequence
produced by `generar_acf_pacf` equals exactly 1. -/
theorem acf_lag0_eq_one (s : List ℚ) (h : autocov s 0 ≠ 0) :
    (generar_acf_pacf s 40).1.y.head? = some 1 := by
  simp [generar_acf_pacf, acfList, List.range_succ_eq_map, div_self h]

/-- C5 (witness): the lag-0 property instantiated at the concrete
non-constant series `[0, 1]`. -/
theorem acf_lag0_eq_one_witness :
    autocov [0, 1] 0 ≠ 0 ∧ (generar_acf_pacf [0, 1] 40).1.y.head? = some 1 :=
  ⟨by norm_num [autocov, mean], acf_lag0_eq_one [0, 1] (by norm_num [autocov, mean])⟩

/-- C6: for every dataframe with at least one row, the statistics table
produced by `update_table` has exactly 8 records, labelled (in order)
count, mean, std, min, 25%, 50%, 75%, max. -/
theorem update_table_eight_rows (df : DataFrame) (s : String)
    (h : 0 < numRows df) :
    (update_table df s).records.length = 8 ∧
    (update_table df s).records.map Prod.fst =
      ["count", "mean", "std", "min", "25%", "50%", "75%", "max"] := by
  simp [update_table, describe, statFns]

/-- C6 (witness): the eight-row property instantiated at a concrete two-row
dataframe. -/
theorem update_table_eight_rows_witness :
    0 < numRows dfEx ∧
    ((update_table dfEx "Cierre").records.length = 8 ∧
     (update_table dfEx "Cierre").records.map Prod.fst =
       ["count", "mean", "std", "min", "25%", "50%", "75%", "max"]) :=
  ⟨by decide, update_table_eight_rows dfEx "Cierre" (by decide)⟩

/-- C7: invoking the summary-statistics computation twice on an unchanged
dataframe yields identical results — the second invocation, run on the
dataframe state left by the first, returns the same table. -/
theorem update_table_idempotent (df : DataFrame) (s : String) :
    (update_table_call (update_table_call df s).2 s).1 =
      (update_table_call df s).1 := rfl

/-- C8: the dataframe is never mutated by the view computations — each of
`update_graph`, `update_table` and the startup `generar_acf_pacf` call leaves
the dataframe state exactly as it found it. -/
theorem views_leave_df_unchanged (df : DataFrame) (p s : String) :
    (update_graph_call df p).2 = df ∧ (update_table_call df s).2 = df ∧
    (generar_acf_pacf_call df).2 = df :=
  ⟨rfl, rfl, rfl⟩

/-- C9: given a dataframe containing the `Fecha` column (as the prepared
PriceSeries does), `update_graph` is total over its input: for every string
field name whatsoever — including names outside the four dropdown options —
it returns a figure without raising, because the guard checks membership in
the columns before any access. -/
theorem update_graph_total_on_strings (df : DataFrame)
    (hf : hasCol df "Fecha" = true) (p : String) :
    returnsOk (update_graph df p) = true := by
  obtain ⟨fecha, hfe⟩ := Option.isSome_iff_exists.mp hf
  unfold update_graph
  rw [hfe]
  split
  · rfl
  · rfl

/-- C9 (witness): totality instantiated at a concrete dataframe and the
out-of-dropdown field name `Volumen` (absent from the dataframe). -/
theorem update_graph_total_on_strings_witness :
    hasCol dfEx "Fecha" = true ∧ returnsOk (update_graph dfEx "Volumen") = true :=
  ⟨by decide, update_graph_total_on_strings dfEx (by decide) "Volumen"⟩

/-- C10: for any lag count `n` and any input series, the ACF and PACF value
sequences produced by `generar_acf_pacf` have equal length `n + 1`, and both
output bar charts carry the identical lag axis `0 .. n`, derived from the
length of the ACF sequence and shared by both figures. -/
theorem acf_pacf_shared_lag_axis (s : List ℚ) (n : Nat) :
    (generar_acf_pacf s n).1.x = (generar_acf_pacf s n).2.x ∧
    (generar_acf_pacf s n).1.x = List.range (n + 1) ∧
    (generar_acf_pacf s n).1.y.length = n + 1 ∧
    (generar_acf_pacf s n).2.y.length = n + 1 := by
  refine ⟨rfl, ?_, ?_, ?_⟩ <;> simp [generar_acf_pacf, acfList, pacfList]

end BtcApp
